import Mathlib

/-!
Verification of the mcp-langgraph-math-server repository against its
specification.  The Python sources are shallowly embedded: pure functions
become Lean functions, stateful components become explicit state passing,
fallible code returns `Option`/`Except`, and Python numbers are modelled by
`Int`/`ℚ` (float formatting and rounding are outside every claim).
-/

namespace MCPMath

/-- Opening curly brace character, written via its code point. -/
def lbrace : Char := '\x7b'

/-- Closing curly brace character, written via its code point. -/
def rbrace : Char := '\x7d'

/-- JSON values as decoded by Python's `json.loads`, restricted to the
integer-numeral fragment that every directive and argument mapping in the
repository uses (no claim involves fractional JSON literals). -/
inductive Json where
  | null
  | bool (b : Bool)
  | num (n : Int)
  | str (s : String)
  | arr (elems : List Json)
  | obj (fields : List (String × Json))
deriving Repr

/-- Whitespace skipping used by the JSON reader (space, tab, newline, CR). -/
def skipWs : List Char → List Char
  | c :: cs => if c = ' ' ∨ c = '\n' ∨ c = '\t' ∨ c = '\r' then skipWs cs else c :: cs
  | [] => []

/-- Take a maximal run of decimal digits. -/
def takeDigits : List Char → (List Char × List Char)
  | c :: cs =>
    if c.isDigit then
      let (ds, rest) := takeDigits cs
      (c :: ds, rest)
    else ([], c :: cs)
  | [] => ([], [])

/-- Digits to a natural number (most significant first). -/
def digitsToNat (ds : List Char) : Nat :=
  ds.foldl (fun acc c => acc * 10 + (c.toNat - '0'.toNat)) 0

/-- Parse a JSON string body after the opening quote; supports the standard
single-character escapes (the fragment the repository's texts use). -/
def parseStrBody : Nat → List Char → Option (List Char × List Char)
  | 0, _ => none
  | _, [] => none
  | fuel + 1, c :: cs =>
    if c = '"' then some ([], cs)
    else if c = '\\' then
      match cs with
      | e :: cs' =>
        let esc : Option Char :=
          if e = '"' then some '"'
          else if e = '\\' then some '\\'
          else if e = '/' then some '/'
          else if e = 'n' then some '\n'
          else if e = 't' then some '\t'
          else if e = 'r' then some '\r'
          else none
        match esc with
        | some ch =>
          match parseStrBody fuel cs' with
          | some (body, rest) => some (ch :: body, rest)
          | none => none
        | none => none
      | [] => none
    else
      match parseStrBody fuel cs with
      | some (body, rest) => some (c :: body, rest)
      | none => none

mutual

/-- Parse one JSON value (fuel-bounded recursive descent over characters). -/
def pVal : Nat → List Char → Option (Json × List Char)
  | 0, _ => none
  | fuel + 1, cs =>
    match skipWs cs with
    | 'n' :: 'u' :: 'l' :: 'l' :: rest => some (Json.null, rest)
    | 't' :: 'r' :: 'u' :: 'e' :: rest => some (Json.bool true, rest)
    | 'f' :: 'a' :: 'l' :: 's' :: 'e' :: rest => some (Json.bool false, rest)
    | '"' :: rest =>
      match parseStrBody fuel rest with
      | some (body, rest') => some (Json.str (String.mk body), rest')
      | none => none
    | '-' :: rest =>
      match takeDigits rest with
      | ([], _) => none
      | (ds, rest') => some (Json.num (-(digitsToNat ds : Int)), rest')
    | '[' :: rest => pArr fuel rest
    | c :: rest =>
      if c = lbrace then pObj fuel rest
      else if c.isDigit then
        match takeDigits (c :: rest) with
        | ([], _) => none
        | (ds, rest') => some (Json.num (digitsToNat ds : Int), rest')
      else none
    | [] => none

/-- Parse the elements of a JSON array after the opening bracket. -/
def pArr : Nat → List Char → Option (Json × List Char)
  | 0, _ => none
  | fuel + 1, cs =>
    match skipWs cs with
    | ']' :: rest => some (Json.arr [], rest)
    | cs' =>
      match pVal fuel cs' with
      | none => none
      | some (v, rest) =>
        match pArrRest fuel rest with
        | some (vs, rest') => some (Json.arr (v :: vs), rest')
        | none => none

/-- Parse `, value`* `]` after the first array element. -/
def pArrRest : Nat → List Char → Option (List Json × List Char)
  | 0, _ => none
  | fuel + 1, cs =>
    match skipWs cs with
    | ']' :: rest => some ([], rest)
    | ',' :: rest =>
      match pVal fuel rest with
      | none => none
      | some (v, rest') =>
        match pArrRest fuel rest' with
        | some (vs, rest'') => some (v :: vs, rest'')
        | none => none
    | _ => none

/-- Parse the fields of a JSON object after the opening brace. -/
def pObj : Nat → List Char → Option (Json × List Char)
  | 0, _ => none
  | fuel + 1, cs =>
    match skipWs cs with
    | c :: rest =>
      if c = rbrace then some (Json.obj [], rest)
      else if c = '"' then
        match pField fuel (c :: rest) with
        | none => none
        | some (kv, rest') =>
          match pObjRest fuel rest' with
          | some (kvs, rest'') => some (Json.obj (kv :: kvs), rest'')
          | none => none
      else none
    | [] => none

/-- Parse one `"key": value` field. -/
def pField : Nat → List Char → Option ((String × Json) × List Char)
  | 0, _ => none
  | fuel + 1, cs =>
    match skipWs cs with
    | '"' :: rest =>
      match parseStrBody fuel rest with
      | none => none
      | some (key, rest') =>
        match skipWs rest' with
        | ':' :: rest'' =>
          match pVal fuel rest'' with
          | some (v, rest''') => some ((String.mk key, v), rest''')
          | none => none
        | _ => none
    | _ => none

/-- Parse `, "key": value`* then the closing brace after the first field. -/
def pObjRest : Nat → List Char → Option (List (String × Json) × List Char)
  | 0, _ => none
  | fuel + 1, cs =>
    match skipWs cs with
    | ',' :: rest =>
      match pField fuel rest with
      | none => none
      | some (kv, rest') =>
        match pObjRest fuel rest' with
        | some (kvs, rest'') => some (kv :: kvs, rest'')
        | none => none
    | c :: rest => if c = rbrace then some ([], rest) else none
    | [] => none

end

/-- Model of Python's `json.loads`: parse one value and require that only
whitespace remains. -/
def json_loads (s : String) : Option Json :=
  match pVal (2 * s.length + 8) s.data with
  | some (j, rest) => if skipWs rest = [] then some j else none
  | none => none

/-- Python dict indexing `parsed[key]` on a decoded JSON value: succeeds only
on objects holding the key; with duplicate keys the last binding wins, as in
a Python dict built by `json.loads`. -/
def Json.getField? (j : Json) (key : String) : Option Json :=
  match j with
  | .obj fields => fields.reverse.lookup key
  | _ => none

/-- Scan for the first closing triple backtick, returning the (lazily
matched) body before it and the remainder after it. -/
def findClose : List Char → Option (List Char × List Char)
  | '`' :: '`' :: '`' :: rest => some ([], rest)
  | c :: cs =>
    match findClose cs with
    | some (body, after) => some (c :: body, after)
    | none => none
  | [] => none

/-- One fence-match attempt right after an opening triple backtick: an
optional `json` label, a required newline, then a lazy body up to the next
triple backtick — the shape of the regular expression in
`langgraph_flow/main.py` line 51. -/
def fenceAttempt (cs : List Char) : Option (List Char × List Char) :=
  match cs with
  | '\n' :: body => findClose body
  | _ => none

/-- Model of `re.sub` applied with the fence pattern: each matched fenced
block is replaced by its body; on a failed match the scan advances one
character, exactly as the regex engine does. -/
def subFences : Nat → List Char → List Char
  | 0, cs => cs
  | _ + 1, [] => []
  | fuel + 1, '`' :: '`' :: '`' :: rest =>
    let labelled : Option (List Char × List Char) :=
      match rest with
      | 'j' :: 's' :: 'o' :: 'n' :: rest2 => fenceAttempt rest2
      | _ => none
    match labelled.orElse (fun _ => fenceAttempt rest) with
    | some (body, after) => body ++ subFences fuel after
    | none => '`' :: subFences fuel ('`' :: '`' :: rest)
  | fuel + 1, c :: cs => c :: subFences fuel cs

/-- Python's `str.strip()`: drop leading and trailing whitespace. -/
def pyStrip (s : String) : String :=
  String.mk (((s.data.dropWhile Char.isWhitespace).reverse.dropWhile Char.isWhitespace).reverse)

/-- Strip markdown code fences from the oracle output, then trim — the
normalisation pass of `plan_tool_call` (`re.sub(...).strip()`). -/
def stripFences (s : String) : String :=
  pyStrip (String.mk (subFences (s.length + 1) s.data))

/-- Failure of the Directive Parser: the reason and the untouched raw text
of the oracle response, as carried by the failure output of
`plan_tool_call`. -/
structure DirectiveParseError where
  reason : String
  rawText : String
deriving Repr

/-- A structured call request: the decoded `tool_name` and `arguments`
values (loosely typed, as in the Python code, which performs no type check
on them). -/
structure CallRequest where
  toolName : Json
  arguments : Json
deriving Repr

/-- The Directive Parser of `langgraph_flow/main.py` (`plan_tool_call`):
strip code fences, decode with `json.loads`, then index `tool_name` and
`arguments`; every failure is caught and reported together with the
original raw response text. -/
def plan_tool_call (responseContent : String) : Except DirectiveParseError CallRequest :=
  match json_loads (stripFences responseContent) with
  | none => .error ⟨"json decode failed", responseContent⟩
  | some parsed =>
    match parsed.getField? "tool_name" with
    | none => .error ⟨"KeyError: tool_name", responseContent⟩
    | some tn =>
      match parsed.getField? "arguments" with
      | none => .error ⟨"KeyError: arguments", responseContent⟩
      | some args => .ok ⟨tn, args⟩

/-- The failure output string built by `plan_tool_call`'s except branch. -/
def planFailureOutput (e : DirectiveParseError) : String :=
  "❌ Failed to parse tool call: " ++ e.reason ++ "\nRaw response: " ++ e.rawText

/-- The round-trip directive of the specification, bare. -/
def bareDirective : String :=
  "\x7b\"tool_name\": \"add\", \"arguments\": \x7b\"numbers\": [2, 3]\x7d\x7d"

/-- The round-trip directive wrapped in a labelled code fence. -/
def fencedDirective : String := "```json\n" ++ bareDirective ++ "\n```"

/-- A truncated (malformed) directive. -/
def truncatedDirective : String :=
  "\x7b\"tool_name\": \"add\", \"arguments\": \x7b\"numbers\": [2,"

/-- The call request the round-trip directive decodes to. -/
def addRequest : CallRequest :=
  ⟨Json.str "add", Json.obj [("numbers", Json.arr [Json.num 2, Json.num 3])]⟩

/-- A content block of a call result; the workers only ever build the
`text` variant (`TextContent(type="text", text=...)`). -/
structure TextContent where
  type : String
  text : String
deriving Repr, DecidableEq

/-- Build a text content block, as `TextContent(type="text", text=s)` does. -/
def mkText (s : String) : TextContent := ⟨"text", s⟩

/-- A tool descriptor: name, description and input schema, as declared by a
worker's `list_tools` handler. -/
structure Tool where
  name : String
  description : String
  inputSchema : Json
deriving Repr

/-- Python's `str.startswith`, on the character lists of the strings. -/
def pyStartsWith (p s : String) : Bool := p.data.isPrefixOf s.data

/-- Rendering of a Python number in result texts.  The workers print floats
(`10.0`); this model renders the rational value instead — no claim inspects
a success text, so the formatting difference is immaterial. -/
def reprQ (q : ℚ) : String :=
  if q.den = 1 then toString q.num else toString q.num ++ "/" ++ toString q.den

/-- Rendering of a Python list of numbers, as in `f"... {nums} ..."`. -/
def pyNumsRepr (nums : List ℚ) : String :=
  "[" ++ String.intercalate ", " (nums.map reprQ) ++ "]"

/-- Pydantic's lax `float` coercion on a decoded JSON value, restricted to
the numeric fragment the claims use. -/
def pyFloat? : Json → Option ℚ
  | .num n => some (n : ℚ)
  | _ => none

/-- Validation performed by `CalcInput(**arguments)`: the `numbers` field
must be present and hold a list of numbers. -/
def CalcInput_numbers? (arguments : Json) : Option (List ℚ) :=
  match arguments.getField? "numbers" with
  | some (Json.arr xs) => xs.mapM pyFloat?
  | _ => none

/-- Validation performed by `ExpressionInput(**arguments)`: the
`expression` field must be present and hold a string. -/
def ExpressionInput_expression? (arguments : Json) : Option String :=
  match arguments.getField? "expression" with
  | some (Json.str s) => some s
  | _ => none

/-- The divide loop of the workers: fold division over the tail, returning
`none` (the early `Division by zero` return) when a divisor is zero. -/
def divide_loop (acc : ℚ) : List ℚ → Option ℚ
  | [] => some acc
  | n :: rest => if n = 0 then none else divide_loop (acc / n) rest

/-- Values arising while evaluating a Python expression inside the worker.
Members of the `math` module are opaque external objects: constants and
function results are `mathVal`, functions are `mathFn`.  Only whether
evaluation succeeds or raises matters to the claims, never the numeric
value of a `math` member. -/
inductive PyValue where
  | num (q : ℚ)
  | pyNone
  | mathFn (name : String)
  | mathVal (tag : String)
deriving Repr, DecidableEq

/-- Rendering of an evaluation result in success texts (never inspected by
a claim). -/
def reprPyValue : PyValue → String
  | .num q => reprQ q
  | .pyNone => "None"
  | .mathFn n => "<built-in function " ++ n ++ ">"
  | .mathVal t => "<" ++ t ++ ">"

/-- Python unary minus on a value. -/
def pyNeg : PyValue → Except String PyValue
  | .num q => .ok (.num (-q))
  | .mathVal _ => .ok (.mathVal "float")
  | _ => .error "bad operand type for unary -"

/-- Python binary arithmetic on values.  Arithmetic touching an opaque
`math` float is modelled as an opaque float result; every claim concerns
only the error/success split of name resolution and the catch-all. -/
def pyBin (op : Char) (a b : PyValue) : Except String PyValue :=
  match a, b with
  | .num x, .num y =>
    if op = '+' then .ok (.num (x + y))
    else if op = '-' then .ok (.num (x - y))
    else if op = '*' then .ok (.num (x * y))
    else if op = '/' then
      (if y = 0 then .error "division by zero" else .ok (.num (x / y)))
    else .error "unsupported operator"
  | .mathVal _, .num _ => .ok (.mathVal "float")
  | .num _, .mathVal _ => .ok (.mathVal "float")
  | .mathVal _, .mathVal _ => .ok (.mathVal "float")
  | _, _ => .error "unsupported operand type(s)"

/-- Calling a value.  `math` functions are modelled as returning an opaque
float; a domain error there would only turn more cases into (caught)
errors, which no claim distinguishes. -/
def pyApply : PyValue → List PyValue → Except String PyValue
  | .mathFn _, _ => .ok (.mathVal "float")
  | _, _ => .error "object is not callable"

/-- Modelled from the Python standard library: the keys of
`math.__dict__`, dunder entries included (the source filters them out). -/
def math_dict_keys : List String :=
  ["__name__", "__doc__", "__package__", "__loader__", "__spec__",
   "acos", "acosh", "asin", "asinh", "atan", "atan2", "atanh", "cbrt",
   "ceil", "comb", "copysign", "cos", "cosh", "degrees", "dist", "e",
   "erf", "erfc", "exp", "exp2", "expm1", "fabs", "factorial", "floor",
   "fmod", "frexp", "fsum", "gamma", "gcd", "hypot", "inf", "isclose",
   "isfinite", "isinf", "isnan", "isqrt", "lcm", "ldexp", "lgamma",
   "log", "log10", "log1p", "log2", "modf", "nan", "nextafter", "perm",
   "pi", "pow", "prod", "radians", "remainder", "sin", "sinh", "sqrt",
   "tan", "tanh", "tau", "trunc", "ulp"]

/-- The non-callable members of `math` (float constants). -/
def math_constant_names : List String := ["pi", "e", "tau", "inf", "nan"]

/-- The comprehension of `mcp_server/server.py` lines 55–57: every
`math.__dict__` entry whose key does not start with a double underscore. -/
def allowed_names : List String :=
  math_dict_keys.filter (fun k => !(pyStartsWith "__" k))

/-- Name resolution of `eval(expr, \x7b"__builtins__": None\x7d, allowed_names)`:
locals are the public `math` members, globals hold only `__builtins__`
mapped to `None`, and there is no builtin fallback, so every other name
raises `NameError`. -/
def mathResolve (n : String) : Except String PyValue :=
  if n ∈ allowed_names then
    .ok (if n ∈ math_constant_names then PyValue.mathVal n else PyValue.mathFn n)
  else if n = "__builtins__" then .ok PyValue.pyNone
  else .error ("name '" ++ n ++ "' is not defined")

/-- Name resolution of `eval(expr, \x7b"__builtins__": None\x7d, \x7b\x7d)` in
`server.py` (`evaluate_expression_node`): empty locals, no builtins. -/
def emptyResolve (n : String) : Except String PyValue :=
  if n = "__builtins__" then .ok PyValue.pyNone
  else .error ("name '" ++ n ++ "' is not defined")

/-- Whether a name resolves without raising. -/
def resolvableOf (resolve : String → Except String PyValue) (n : String) : Bool :=
  match resolve n with
  | .ok _ => true
  | .error _ => false

/-- Abstract syntax of the arithmetic Python expressions the workers
evaluate: numerals, names, unary minus, the four binary operators, and
calls.  Expressions outside this fragment fail to compile in the model
(a `SyntaxError`, caught like every other evaluation error). -/
inductive PyExpr where
  | numLit (n : Int)
  | nameRef (s : String)
  | neg (e : PyExpr)
  | bin (op : Char) (l r : PyExpr)
  | call (f : PyExpr) (args : List PyExpr)
deriving Repr

/-- Identifier characters after the first (letters, digits, underscore). -/
def isIdentChar (c : Char) : Bool := c.isAlpha || c.isDigit || c = '_'

/-- Take a maximal run of identifier characters. -/
def takeIdent : List Char → (List Char × List Char)
  | c :: cs =>
    if isIdentChar c then
      let (ds, rest) := takeIdent cs
      (c :: ds, rest)
    else ([], c :: cs)
  | [] => ([], [])

mutual

/-- Additive level of the expression grammar. -/
def pyExprP : Nat → List Char → Option (PyExpr × List Char)
  | 0, _ => none
  | fuel + 1, cs =>
    match pyTermP fuel cs with
    | none => none
    | some (t, rest) => pyAddRest fuel t rest

/-- Left-associative loop over `+` and `-`. -/
def pyAddRest : Nat → PyExpr → List Char → Option (PyExpr × List Char)
  | 0, _, _ => none
  | fuel + 1, acc, cs =>
    match skipWs cs with
    | '+' :: rest =>
      match pyTermP fuel rest with
      | none => none
      | some (t, rest') => pyAddRest fuel (PyExpr.bin '+' acc t) rest'
    | '-' :: rest =>
      match pyTermP fuel rest with
      | none => none
      | some (t, rest') => pyAddRest fuel (PyExpr.bin '-' acc t) rest'
    | _ => some (acc, cs)

/-- Multiplicative level of the expression grammar. -/
def pyTermP : Nat → List Char → Option (PyExpr × List Char)
  | 0, _ => none
  | fuel + 1, cs =>
    match pyUnaryP fuel cs with
    | none => none
    | some (u, rest) => pyMulRest fuel u rest

/-- Left-associative loop over `*` and `/`. -/
def pyMulRest : Nat → PyExpr → List Char → Option (PyExpr × List Char)
  | 0, _, _ => none
  | fuel + 1, acc, cs =>
    match skipWs cs with
    | '*' :: rest =>
      match pyUnaryP fuel rest with
      | none => none
      | some (u, rest') => pyMulRest fuel (PyExpr.bin '*' acc u) rest'
    | '/' :: rest =>
      match pyUnaryP fuel rest with
      | none => none
      | some (u, rest') => pyMulRest fuel (PyExpr.bin '/' acc u) rest'
    | _ => some (acc, cs)

/-- Unary minus. -/
def pyUnaryP : Nat → List Char → Option (PyExpr × List Char)
  | 0, _ => none
  | fuel + 1, cs =>
    match skipWs cs with
    | '-' :: rest =>
      match pyUnaryP fuel rest with
      | none => none
      | some (u, rest') => some (PyExpr.neg u, rest')
    | cs' => pyAtomP fuel cs'

/-- Atoms: numerals, names with an optional call suffix, parentheses. -/
def pyAtomP : Nat → List Char → Option (PyExpr × List Char)
  | 0, _ => none
  | fuel + 1, cs =>
    match skipWs cs with
    | [] => none
    | c :: rest =>
      if c.isDigit then
        match takeDigits (c :: rest) with
        | ([], _) => none
        | (ds, rest') => some (PyExpr.numLit (digitsToNat ds : Int), rest')
      else if c.isAlpha || c = '_' then
        let (ident, rest') := takeIdent (c :: rest)
        match skipWs rest' with
        | '(' :: rest'' =>
          match pyArgsP fuel rest'' with
          | none => none
          | some (args, rest''') =>
            some (PyExpr.call (PyExpr.nameRef (String.mk ident)) args, rest''')
        | _ => some (PyExpr.nameRef (String.mk ident), rest')
      else if c = '(' then
        match pyExprP fuel rest with
        | none => none
        | some (e, rest') =>
          match skipWs rest' with
          | ')' :: rest'' => some (e, rest'')
          | _ => none
      else none

/-- A call's argument list after the opening parenthesis. -/
def pyArgsP : Nat → List Char → Option (List PyExpr × List Char)
  | 0, _ => none
  | fuel + 1, cs =>
    match skipWs cs with
    | ')' :: rest => some ([], rest)
    | cs' =>
      match pyExprP fuel cs' with
      | none => none
      | some (e, rest) => pyArgsRest fuel e rest

/-- Loop over `, argument` then the closing parenthesis. -/
def pyArgsRest : Nat → PyExpr → List Char → Option (List PyExpr × List Char)
  | 0, _, _ => none
  | fuel + 1, e, cs =>
    match skipWs cs with
    | ')' :: rest => some ([e], rest)
    | ',' :: rest =>
      match pyExprP fuel rest with
      | none => none
      | some (e', rest') =>
        match pyArgsRest fuel e' rest' with
        | none => none
        | some (es, rest'') => some (e :: es, rest'')
    | _ => none

end

/-- Compile an expression string, as `eval` does before evaluating; `none`
models a `SyntaxError`. -/
def pyParse (s : String) : Option PyExpr :=
  match pyExprP (2 * s.length + 8) s.data with
  | some (e, rest) => if skipWs rest = [] then some e else none
  | none => none

mutual

/-- Evaluate an expression under a name resolver (fuel-bounded; the fuel
always exceeds the depth of any parsed expression, and exhaustion is just
one more raised-and-caught error). -/
def evalPyF (resolve : String → Except String PyValue) :
    Nat → PyExpr → Except String PyValue
  | 0, _ => .error "maximum recursion depth exceeded"
  | _ + 1, .numLit n => .ok (.num (n : ℚ))
  | _ + 1, .nameRef s => resolve s
  | fuel + 1, .neg e =>
    match evalPyF resolve fuel e with
    | .ok v => pyNeg v
    | .error m => .error m
  | fuel + 1, .bin op l r =>
    match evalPyF resolve fuel l with
    | .error m => .error m
    | .ok a =>
      match evalPyF resolve fuel r with
      | .error m => .error m
      | .ok b => pyBin op a b
  | fuel + 1, .call f args =>
    match evalPyF resolve fuel f with
    | .error m => .error m
    | .ok fv =>
      match evalArgsF resolve fuel args with
      | .error m => .error m
      | .ok vs => pyApply fv vs

/-- Evaluate a call's arguments left to right. -/
def evalArgsF (resolve : String → Except String PyValue) :
    Nat → List PyExpr → Except String (List PyValue)
  | 0, _ => .error "maximum recursion depth exceeded"
  | _ + 1, [] => .ok []
  | fuel + 1, e :: es =>
    match evalPyF resolve fuel e with
    | .error m => .error m
    | .ok v =>
      match evalArgsF resolve fuel es with
      | .error m => .error m
      | .ok vs => .ok (v :: vs)

end

mutual

/-- Whether the expression contains a name the resolver rejects (fuel
bounded; `true` is only ever returned for a genuinely present bad name). -/
def hasBadNameF (resolvable : String → Bool) : Nat → PyExpr → Bool
  | 0, _ => false
  | _ + 1, .numLit _ => false
  | _ + 1, .nameRef s => !(resolvable s)
  | fuel + 1, .neg e => hasBadNameF resolvable fuel e
  | fuel + 1, .bin _ l r =>
    hasBadNameF resolvable fuel l || hasBadNameF resolvable fuel r
  | fuel + 1, .call f args =>
    hasBadNameF resolvable fuel f || hasBadNamesF resolvable fuel args

/-- List version of `hasBadNameF`. -/
def hasBadNamesF (resolvable : String → Bool) : Nat → List PyExpr → Bool
  | 0, _ => false
  | _ + 1, [] => false
  | fuel + 1, e :: es =>
    hasBadNameF resolvable fuel e || hasBadNamesF resolvable fuel es

end

/-- Python's `eval` on an expression string under a resolver: compile, then
evaluate; every failure is an exception message. -/
def pyEvalStr (resolve : String → Except String PyValue) (s : String) :
    Except String PyValue :=
  match pyParse s with
  | none => .error "invalid syntax"
  | some ast => evalPyF resolve (2 * s.length + 8) ast

/-- Modelled from pydantic: the JSON schema generated for `CalcInput`. -/
def calcInputSchema : Json :=
  Json.obj
    [("properties",
      Json.obj [("numbers",
        Json.obj [("items", Json.obj [("type", Json.str "number")]),
                  ("title", Json.str "Numbers"),
                  ("type", Json.str "array")])]),
     ("required", Json.arr [Json.str "numbers"]),
     ("title", Json.str "CalcInput"),
     ("type", Json.str "object")]

/-- Modelled from pydantic: the JSON schema generated for
`ExpressionInput`. -/
def expressionInputSchema : Json :=
  Json.obj
    [("properties",
      Json.obj [("expression",
        Json.obj [("title", Json.str "Expression"),
                  ("type", Json.str "string")])]),
     ("required", Json.arr [Json.str "expression"]),
     ("title", Json.str "ExpressionInput"),
     ("type", Json.str "object")]

/-- The tool descriptors declared by the calculator worker's `list_tools`
handler (`mcp_server/server.py` lines 18–26). -/
def calculator_list_tools : List Tool :=
  [⟨"add", "Add numbers", calcInputSchema⟩,
   ⟨"subtract", "Subtract numbers", calcInputSchema⟩,
   ⟨"multiply", "Multiply numbers", calcInputSchema⟩,
   ⟨"divide", "Divide numbers", calcInputSchema⟩,
   ⟨"evaluate_expression", "Evaluate a math expression", expressionInputSchema⟩]

/-- The four arithmetic tool names of the calculator worker. -/
def calcToolNames : List String := ["add", "subtract", "multiply", "divide"]

/-- The success line `f"✅ \x7bname\x7d: \x7bnums\x7d -> \x7bresult\x7d"`. -/
def calcSuccess (name : String) (nums : List ℚ) (r : ℚ) : String :=
  "✅ " ++ name ++ ": " ++ pyNumsRepr nums ++ " -> " ++ reprQ r

/-- The try-block of the calculator worker's `call_tool`
(`mcp_server/server.py` lines 29–64); a returned `error` is an exception
reaching the handler's `except` clause. -/
def mcp_call_tool_body (name : String) (arguments : Json) :
    Except String (List TextContent) :=
  if name ∈ calcToolNames then
    match CalcInput_numbers? arguments with
    | none => .error "validation error for CalcInput"
    | some nums =>
      if nums.length < 2 then .ok [mkText "❌ Provide at least two numbers."]
      else
        if name = "add" then
          .ok [mkText (calcSuccess "add" nums (nums.foldl (· + ·) 0))]
        else if name = "subtract" then
          .ok [mkText (calcSuccess "subtract" nums (nums.tail.foldl (· - ·) nums.headI))]
        else if name = "multiply" then
          .ok [mkText (calcSuccess "multiply" nums (nums.foldl (· * ·) 1))]
        else
          match divide_loop nums.headI nums.tail with
          | none => .ok [mkText "❌ Division by zero"]
          | some r => .ok [mkText (calcSuccess "divide" nums r)]
  else if name = "evaluate_expression" then
    match ExpressionInput_expression? arguments with
    | none => .error "validation error for ExpressionInput"
    | some expr =>
      match pyEvalStr mathResolve expr with
      | .error m => .error m
      | .ok v => .ok [mkText ("✅ Expression: " ++ expr ++ " -> " ++ reprPyValue v)]
  else .ok [mkText ("❌ Unknown tool: " ++ name)]

/-- The calculator worker's `call_tool` handler: the try-block with its
catch-all `except` converting any exception into a single error text
block. -/
def mcp_call_tool (name : String) (arguments : Json) : List TextContent :=
  match mcp_call_tool_body name arguments with
  | .ok r => r
  | .error e => [mkText ("❌ Error: " ++ e)]

/-- Python's `str.split()` with no separator: split on whitespace runs,
dropping empty tokens. -/
def splitWsAux : List Char → List Char → List String
  | [], acc => if acc = [] then [] else [String.mk acc.reverse]
  | c :: cs, acc =>
    if c.isWhitespace then
      (if acc = [] then splitWsAux cs []
       else String.mk acc.reverse :: splitWsAux cs [])
    else splitWsAux cs (c :: acc)

/-- Python `input.split()` on a string. -/
def py_split (s : String) : List String := splitWsAux s.data []

/-- Python's `float(token)` on the decimal fragment: optional sign, digits,
optional fraction.  Tokens outside this fragment raise in the source and
fail here. -/
def py_float? (t : String) : Option ℚ :=
  let signed : Bool × List Char :=
    match t.data with
    | '-' :: r => (true, r)
    | '+' :: r => (false, r)
    | r => (false, r)
  match takeDigits signed.2 with
  | ([], _) => none
  | (ds, rest) =>
    let intPart : ℚ := (digitsToNat ds : ℚ)
    let value? : Option ℚ :=
      match rest with
      | [] => some intPart
      | '.' :: frac =>
        match takeDigits frac with
        | (fs, []) =>
          some (intPart + (digitsToNat fs : ℚ) / ((10 : ℚ) ^ fs.length))
        | _ => none
      | _ => none
    value?.map (fun q => if signed.1 then -q else q)

/-- Parse all whitespace-separated tokens of the input as floats, as
`list(map(float, state["input"].split()))` does. -/
def parse_nums? (s : String) : Option (List ℚ) := (py_split s).mapM py_float?

/-- The graph node bodies of `server.py` (lines 20–66) on a string input.
Each node catches its own exceptions and renders them as its output
string, so a node never raises. -/
def lg_node_on_str (name : String) (s : String) : String :=
  if name = "add" then
    match parse_nums? s with
    | none => "Error in add: could not convert string to float"
    | some nums => "add: " ++ pyNumsRepr nums ++ " -> " ++ reprQ (nums.foldl (· + ·) 0)
  else if name = "subtract" then
    match parse_nums? s with
    | none => "Error in subtract: could not convert string to float"
    | some [] => "Error in subtract: list index out of range"
    | some (a :: rest) =>
      "subtract: " ++ pyNumsRepr (a :: rest) ++ " -> " ++ reprQ (rest.foldl (· - ·) a)
  else if name = "multiply" then
    match parse_nums? s with
    | none => "Error in multiply: could not convert string to float"
    | some nums => "multiply: " ++ pyNumsRepr nums ++ " -> " ++ reprQ (nums.foldl (· * ·) 1)
  else if name = "divide" then
    match parse_nums? s with
    | none => "Error in divide: could not convert string to float"
    | some [] => "Error in divide: list index out of range"
    | some (a :: rest) =>
      match divide_loop a rest with
      | none => "Division by zero in " ++ pyNumsRepr (a :: rest)
      | some r => "divide: " ++ pyNumsRepr (a :: rest) ++ " -> " ++ reprQ r
  else
    match pyEvalStr emptyResolve s with
    | .error m => "Error in expression: " ++ m
    | .ok v => "result: " ++ s ++ " = " ++ reprPyValue v

/-- The error prefix each node uses in its own except clause. -/
def lg_node_err_label (name : String) : String :=
  if name = "evaluate_expression" then "expression" else name

/-- A node applied to the raw `input` value: a non-string input makes the
node's first `.split()` (or `eval`) raise inside the node, which the node
itself catches. -/
def lg_node_output (name : String) (input : Json) : String :=
  match input with
  | .str s => lg_node_on_str name s
  | _ => "Error in " ++ lg_node_err_label name ++ ": bad input object"

/-- The five tool names declared by the `server.py` worker. -/
def lg_tool_names : List String :=
  ["add", "subtract", "multiply", "divide", "evaluate_expression"]

/-- The try-block of the `server.py` worker's `call_tool` (lines 126–136):
build the one-node flow, run it on `arguments["input"]`, return its output
as one text block; a missing `input` key is a raised `KeyError`. -/
def lg_call_tool_body (name : String) (arguments : Json) :
    Except String (List TextContent) :=
  if name ∈ lg_tool_names then
    match arguments.getField? "input" with
    | none => .error "'input'"
    | some v => .ok [mkText (lg_node_output name v)]
  else .ok [mkText ("Unknown tool: " ++ name)]

/-- The `server.py` worker's `call_tool` handler with its catch-all. -/
def lg_call_tool (name : String) (arguments : Json) : List TextContent :=
  match lg_call_tool_body name arguments with
  | .ok r => r
  | .error e => [mkText ("Error: " ++ e)]

/-- Observable state of one `MCPServer` (`mcp_simple_chatbot/main.py`):
whether the exit stack is open, whether the spawned worker process is
alive, whether the handshake completed, and how many round trips have been
made through the session. -/
structure MCPServerState where
  stackOpened : Bool
  workerRunning : Bool
  sessionReady : Bool
  roundTrips : Nat
deriving Repr, DecidableEq

/-- A freshly constructed `MCPServer`. -/
def freshServer : MCPServerState := ⟨false, false, false, 0⟩

/-- `MCPServer.initialize` (lines 37–54): enter the exit stack, spawn the
worker via `stdio_client`, open the `ClientSession`, run the handshake.
The `except` clause only logs and re-raises — it does not close the exit
stack, so on a handshake failure the state keeps `workerRunning = true`
when the error propagates. -/
def initializeServer (spawnFails handshakeFails : Bool) (st : MCPServerState) :
    MCPServerState × Option String :=
  let st1 := {st with stackOpened := true}
  if spawnFails then (st1, some "spawn failed")
  else
    let st2 := {st1 with workerRunning := true}
    if handshakeFails then (st2, some "handshake failed")
    else ({st2 with sessionReady := true}, none)

/-- `MCPServer.cleanup` (lines 69–71): closing the exit stack unwinds the
`stdio_client` context, which terminates the worker process. -/
def cleanupServer (st : MCPServerState) : MCPServerState :=
  if st.stackOpened then {st with stackOpened := false, workerRunning := false}
  else st

/-- One field yielded while iterating a `ListToolsResult` pydantic model:
a `(fieldName, value)` tuple; only the `tools` field carries descriptors. -/
inductive RespField where
  | otherField (key : String)
  | toolsField (key : String) (tools : List Tool)

/-- Iterating the `ListToolsResult` returned by `session.list_tools()`
yields its fields in declaration order, the declared tools under the
`tools` key. -/
def listToolsResultItems (tools : List Tool) : List RespField :=
  [.otherField "meta", .otherField "nextCursor", .toolsField "tools" tools]

/-- The extraction loop of `MCPServer.list_tools` (lines 59–62): collect
every tuple whose first component is `"tools"`. -/
def extract_tools : List RespField → List Tool
  | [] => []
  | .otherField _ :: rest => extract_tools rest
  | .toolsField k ts :: rest =>
    if k = "tools" then ts ++ extract_tools rest else extract_tools rest

/-- `MCPServer.list_tools` (lines 56–63): assert the session is
initialized, perform one `session.list_tools()` round trip to the worker
(there is no cache), and extract the descriptors from the response.
`declaredTools` is what the connected worker's `list_tools` handler
declares. -/
def MCPServer_list_tools (declaredTools : List Tool) (st : MCPServerState) :
    Except String (List Tool × MCPServerState) :=
  if st.sessionReady then
    .ok (extract_tools (listToolsResultItems declaredTools),
         {st with roundTrips := st.roundTrips + 1})
  else .error "MCP server session not initialized"

/-- State of the langgraph flow's tool executor: the cached registry
snapshot and the number of calls sent through the Protocol Session. -/
structure ExecutorState where
  registry : List Tool
  sessionCalls : Nat
deriving Repr

/-- Modelled from the spec: `MCPToolExecutor.list_tools` — the class lives
in `langgraph_flow/tool_executor.py`, which is not among the sources; §4.3
makes the Tool Registry a cached catalog with no implicit refresh on read,
so a read returns the cached snapshot without contacting the Session. -/
def executor_list_tools (st : ExecutorState) : List Tool × ExecutorState :=
  (st.registry, st)

/-- Modelled from the spec: `MCPToolExecutor.execute_tool` forwards the
validated call through the Protocol Session to the worker — here the
calculator worker of `mcp_server/server.py`, which `langgraph_flow/main.py`
line 31 spawns — costing one session round trip. -/
def executor_execute_tool (name : String) (args : Json) (st : ExecutorState) :
    List TextContent × ExecutorState :=
  (mcp_call_tool name args, {st with sessionCalls := st.sessionCalls + 1})

/-- Python's repr of a list of strings, as in `f"\x7bavailable_tools\x7d"`. -/
def pyStrListRepr (names : List String) : String :=
  "[" ++ String.intercalate ", " (names.map (fun n => "'" ++ n ++ "'")) ++ "]"

/-- The unknown-tool output of `call_mcp_tool`, carrying the attempted name
and the available names. -/
def unknownToolOutput (name : String) (available : List String) : String :=
  "❌ Unknown tool selected: '" ++ name ++ "'. Available tools: " ++
    pyStrListRepr available

/-- The joining of result blocks in `call_mcp_tool` line 83:
`"\n".join(c.text for c in result.content if c.type == "text")`. -/
def joinTextBlocks (blocks : List TextContent) : String :=
  String.intercalate "\n"
    ((blocks.filter (fun c => c.type == "text")).map TextContent.text)

/-- The Dispatcher node `call_mcp_tool` of `langgraph_flow/main.py` (lines
66–86): read the registry, reject a tool name absent from it with an
error output naming the tool and the available names, otherwise execute
through the session and join the text blocks.  Returns the new `output`
state field together with the executor state. -/
def call_mcp_tool (tool_name : String) (arguments : Json) (st : ExecutorState) :
    String × ExecutorState :=
  let listed := executor_list_tools st
  let available := listed.1.map Tool.name
  if tool_name ∉ available then
    (unknownToolOutput tool_name available, listed.2)
  else
    let executed := executor_execute_tool tool_name arguments listed.2
    (joinTextBlocks executed.1, executed.2)

/-- Rendering of a decoded JSON value as Python repr (fuel-bounded; used
only inside displayed lines no claim inspects). -/
def jsonReprF : Nat → Json → String
  | 0, _ => "..."
  | _ + 1, .null => "None"
  | _ + 1, .bool b => if b then "True" else "False"
  | _ + 1, .num n => toString n
  | _ + 1, .str s => "'" ++ s ++ "'"
  | fuel + 1, .arr xs =>
    "[" ++ String.intercalate ", " (xs.map (fun x => jsonReprF fuel x)) ++ "]"
  | fuel + 1, .obj fs =>
    String.singleton lbrace ++
      String.intercalate ", "
        (fs.map (fun kv => "'" ++ kv.1 ++ "': " ++ jsonReprF fuel kv.2)) ++
      String.singleton rbrace

/-- One iteration of the chat loop of `ChatSession.start`
(`mcp_simple_chatbot/main.py` lines 143–164) on an LLM response, against a
single server whose worker is the calculator: the lines printed for the
user.  Every failure is caught and printed; the loop itself never aborts. -/
def handle_llm_response (llm_response : String) (serverTools : List Tool) :
    List String :=
  if pyStartsWith (String.singleton lbrace) llm_response then
    match json_loads llm_response with
    | none => ["Error parsing LLM response: json decode failed"]
    | some parsed =>
      match parsed.getField? "tool" with
      | none => ["Error parsing LLM response: 'tool'"]
      | some toolJson =>
        let args := (parsed.getField? "arguments").getD (Json.obj [])
        match toolJson with
        | .str tn =>
          if serverTools.any (fun t => t.name == tn) then
            ("\nExecuting " ++ tn ++ " with args: " ++ jsonReprF 1000 args) ::
              "Tool Output:" ::
              ((mcp_call_tool tn args).filterMap
                (fun c => if c.type == "text" then some c.text else none))
          else ["Tool not found"]
        | _ => ["Tool not found"]
  else ["OpenAI: " ++ llm_response]

/-- The arguments of the divide-by-zero scenario. -/
def divideArgs : Json := Json.obj [("numbers", Json.arr [Json.num 10, Json.num 0])]

/-- An LLM response selecting a tool the server does not expose. -/
def nosuchDirectiveA : String := "\x7b\"tool\": \"modulo\", \"arguments\": \x7b\x7d\x7d"

/-- A second unknown-tool response with a different attempted name. -/
def nosuchDirectiveB : String := "\x7b\"tool\": \"hyperdrive\", \"arguments\": \x7b\x7d\x7d"

/-- A server state after a successful spawn and handshake. -/
def readyState : MCPServerState := ⟨true, true, true, 0⟩

/-- The executor state right after startup: registry populated with the
calculator worker's declared tools, no calls sent yet. -/
def startupExecutor : ExecutorState := ⟨calculator_list_tools, 0⟩

/-- Argument object for an `evaluate_expression` call. -/
def exprArgs (expr : String) : Json := Json.obj [("expression", Json.str expr)]

theorem badName_eval_error (resolve : String → Except String PyValue) :
    ∀ fb : Nat,
      (∀ e, hasBadNameF (resolvableOf resolve) fb e = true →
        ∀ fe, ∃ m, evalPyF resolve fe e = .error m) ∧
      (∀ es, hasBadNamesF (resolvableOf resolve) fb es = true →
        ∀ fe, ∃ m, evalArgsF resolve fe es = .error m) := by
  intro fb
  induction fb with
  | zero =>
    constructor
    · intro e hx; simp [hasBadNameF] at hx
    · intro es hx; simp [hasBadNamesF] at hx
  | succ fb ih =>
    obtain ⟨ih1, ih2⟩ := ih
    constructor
    · intro e hbad fe
      match fe with
      | 0 => exact ⟨_, rfl⟩
      | fe + 1 =>
        cases e with
        | numLit n => simp [hasBadNameF] at hbad
        | nameRef s =>
          simp only [hasBadNameF, Bool.not_eq_true'] at hbad
          revert hbad
          unfold resolvableOf
          cases hres : resolve s with
          | ok v => simp
          | error m => exact fun _ => ⟨m, by simp [evalPyF, hres]⟩
        | neg e' =>
          simp only [hasBadNameF] at hbad
          obtain ⟨m, hm⟩ := ih1 e' hbad fe
          exact ⟨m, by simp [evalPyF, hm]⟩
        | bin op l r =>
          simp only [hasBadNameF, Bool.or_eq_true] at hbad
          rcases hbad with hl | hr
          · obtain ⟨m, hm⟩ := ih1 l hl fe
            exact ⟨m, by simp [evalPyF, hm]⟩
          · cases hev : evalPyF resolve fe l with
            | error m => exact ⟨m, by simp [evalPyF, hev]⟩
            | ok a =>
              obtain ⟨m, hm⟩ := ih1 r hr fe
              exact ⟨m, by simp [evalPyF, hev, hm]⟩
        | call f args =>
          simp only [hasBadNameF, Bool.or_eq_true] at hbad
          rcases hbad with hf | hargs
          · obtain ⟨m, hm⟩ := ih1 f hf fe
            exact ⟨m, by simp [evalPyF, hm]⟩
          · cases hev : evalPyF resolve fe f with
            | error m => exact ⟨m, by simp [evalPyF, hev]⟩
            | ok fv =>
              obtain ⟨m, hm⟩ := ih2 args hargs fe
              exact ⟨m, by simp [evalPyF, hev, hm]⟩
    · intro es hbad fe
      match fe with
      | 0 => exact ⟨_, rfl⟩
      | fe + 1 =>
        cases es with
        | nil => simp [hasBadNamesF] at hbad
        | cons e es =>
          simp only [hasBadNamesF, Bool.or_eq_true] at hbad
          rcases hbad with he | hes
          · obtain ⟨m, hm⟩ := ih1 e he fe
            exact ⟨m, by simp [evalArgsF, hm]⟩
          · cases hev : evalPyF resolve fe e with
            | error m => exact ⟨m, by simp [evalArgsF, hev]⟩
            | ok v =>
              obtain ⟨m, hm⟩ := ih2 es hes fe
              exact ⟨m, by simp [evalArgsF, hev, hm]⟩

/-- C1: a call request whose tool name is not in the registry snapshot is
rejected by `call_mcp_tool` with an output carrying the attempted name and
the available names, and the executor state is returned unchanged — in
particular no call is sent through the Session. -/
theorem c1_unknown_tool_rejected_without_session_contact :
    ∀ (tool_name : String) (args : Json) (st : ExecutorState),
      tool_name ∉ st.registry.map Tool.name →
      call_mcp_tool tool_name args st
          = (unknownToolOutput tool_name (st.registry.map Tool.name), st)
        ∧ (call_mcp_tool tool_name args st).2.sessionCalls = st.sessionCalls := by
  intro tn args st h
  have hout : call_mcp_tool tn args st
      = (unknownToolOutput tn (st.registry.map Tool.name), st) := by
    unfold call_mcp_tool executor_list_tools
    simp only []
    rw [if_pos h]
  exact ⟨hout, by rw [hout]⟩

/-- C1 witness: the request for the absent tool `modulo` against the
startup registry. -/
theorem c1_unknown_tool_witness :
    ("modulo" ∉ startupExecutor.registry.map Tool.name)
    ∧ (call_mcp_tool "modulo" (Json.obj []) startupExecutor
          = (unknownToolOutput "modulo" (startupExecutor.registry.map Tool.name),
             startupExecutor)
       ∧ (call_mcp_tool "modulo" (Json.obj []) startupExecutor).2.sessionCalls
          = startupExecutor.sessionCalls) :=
  ⟨by decide,
   c1_unknown_tool_rejected_without_session_contact "modulo" (Json.obj [])
     startupExecutor (by decide)⟩

/-- C2: the round-trip directive, bare or fenced in a ```json block,
parses to the `add` call request with arguments `numbers = [2, 3]`; and
every parse failure of `plan_tool_call` preserves the original input
verbatim as its raw text, as on the concrete truncated directive. -/
theorem c2_directive_roundtrip_and_raw_preserved :
    plan_tool_call bareDirective = .ok addRequest
    ∧ plan_tool_call fencedDirective = .ok addRequest
    ∧ (∀ s e, plan_tool_call s = Except.error e → e.rawText = s)
    ∧ plan_tool_call truncatedDirective
        = .error ⟨"json decode failed", truncatedDirective⟩ := by
  refine ⟨rfl, rfl, ?_, rfl⟩
  intro s e h
  unfold plan_tool_call at h
  split at h
  · cases h; rfl
  · split at h
    · cases h; rfl
    · split at h
      · cases h; rfl
      · cases h

/-- C2 witness: the truncated directive fails and its preserved raw text is
the input itself. -/
theorem c2_directive_roundtrip_witness :
    plan_tool_call truncatedDirective
        = .error ⟨"json decode failed", truncatedDirective⟩
    ∧ (DirectiveParseError.mk "json decode failed" truncatedDirective).rawText
        = truncatedDirective :=
  ⟨c2_directive_roundtrip_and_raw_preserved.2.2.2,
   c2_directive_roundtrip_and_raw_preserved.2.2.1 truncatedDirective
     ⟨"json decode failed", truncatedDirective⟩
     c2_directive_roundtrip_and_raw_preserved.2.2.2⟩

/-- C3: dispatching `divide` with numbers `[10, 0]` yields a single text
block reporting division by zero; the worker body returns it normally (the
`ok` of the try-block, not a raised error), and the Dispatcher surfaces it
as the flow output. -/
theorem c3_divide_by_zero_single_text_block :
    mcp_call_tool_body "divide" divideArgs = .ok [mkText "❌ Division by zero"]
    ∧ mcp_call_tool "divide" divideArgs = [mkText "❌ Division by zero"]
    ∧ call_mcp_tool "divide" divideArgs startupExecutor
        = ("❌ Division by zero", ⟨calculator_list_tools, 1⟩) :=
  ⟨rfl, rfl, rfl⟩

/-- C4: evaluating `MCPServer.initialize` at the failing input — the
handshake raising after `stdio_client` spawned the worker — shows the error
propagating while the worker is still running and the exit stack still
open: the spawned process is orphaned, although `cleanup` (which nothing on
this path invokes) would have terminated it. -/
theorem c4_initialize_failure_orphans_worker :
    (initializeServer false true freshServer).2 = some "handshake failed"
    ∧ (initializeServer false true freshServer).1.workerRunning = true
    ∧ (initializeServer false true freshServer).1.stackOpened = true
    ∧ (cleanupServer (initializeServer false true freshServer).1).workerRunning
        = false :=
  ⟨rfl, rfl, rfl, rfl⟩

theorem extract_tools_items (ts : List Tool) :
    extract_tools (listToolsResultItems ts) = ts := by
  simp [extract_tools, listToolsResultItems]

/-- C5 counterexample: `MCPServer.list_tools` has no cache — the second
call returns the same descriptors but performs another
`session.list_tools()` round trip (the round-trip count rises from 1 to 2),
contradicting "the second call performs no round trip". -/
theorem c5_second_call_round_trips_counterexample :
    MCPServer_list_tools calculator_list_tools readyState
        = .ok (calculator_list_tools, ⟨true, true, true, 1⟩)
    ∧ MCPServer_list_tools calculator_list_tools ⟨true, true, true, 1⟩
        = .ok (calculator_list_tools, ⟨true, true, true, 2⟩)
    ∧ (MCPServerState.mk true true true 2).roundTrips
        ≠ (MCPServerState.mk true true true 1).roundTrips :=
  ⟨rfl, rfl, by decide⟩

/-- C5 (amended): two `list_tools` calls without an intervening refresh
return identical descriptor lists (the worker's declaration is constant),
but each call performs exactly one round trip to the worker — the registry
read is never served from a cache. -/
theorem c5_list_tools_identical_but_each_call_round_trips :
    ∀ (declared : List Tool) (st : MCPServerState),
      st.sessionReady = true →
      MCPServer_list_tools declared st
          = .ok (declared, {st with roundTrips := st.roundTrips + 1})
      ∧ MCPServer_list_tools declared {st with roundTrips := st.roundTrips + 1}
          = .ok (declared, {st with roundTrips := st.roundTrips + 1 + 1}) := by
  intro d st h
  constructor
  · unfold MCPServer_list_tools
    rw [if_pos h, extract_tools_items]
  · unfold MCPServer_list_tools
    rw [if_pos h, extract_tools_items]

/-- C5 witness: the two calls against a ready session holding the
calculator worker. -/
theorem c5_list_tools_witness :
    readyState.sessionReady = true
    ∧ (MCPServer_list_tools calculator_list_tools readyState
          = .ok (calculator_list_tools,
                 {readyState with roundTrips := readyState.roundTrips + 1})
       ∧ MCPServer_list_tools calculator_list_tools
            {readyState with roundTrips := readyState.roundTrips + 1}
          = .ok (calculator_list_tools,
                 {readyState with roundTrips := readyState.roundTrips + 1 + 1})) :=
  ⟨rfl,
   c5_list_tools_identical_but_each_call_round_trips calculator_list_tools
     readyState rfl⟩

/-- C6: against any worker, `list_tools` after a completed handshake
returns exactly the declared descriptors; concretely, after a successful
`initialize` the calculator worker's descriptors come back name-for-name
(`add`, `subtract`, `multiply`, `divide`, `evaluate_expression`) and
non-empty. -/
theorem c6_list_tools_matches_declared :
    (∀ (declared : List Tool) (st : MCPServerState),
        st.sessionReady = true →
        MCPServer_list_tools declared st
          = .ok (declared, {st with roundTrips := st.roundTrips + 1}))
    ∧ (initializeServer false false freshServer).2 = none
    ∧ (initializeServer false false freshServer).1.sessionReady = true
    ∧ MCPServer_list_tools calculator_list_tools
          (initializeServer false false freshServer).1
        = .ok (calculator_list_tools, ⟨true, true, true, 1⟩)
    ∧ calculator_list_tools.map Tool.name
        = ["add", "subtract", "multiply", "divide", "evaluate_expression"]
    ∧ calculator_list_tools ≠ [] := by
  refine ⟨?_, rfl, rfl, rfl, rfl, ?_⟩
  · intro d st h
    unfold MCPServer_list_tools
    rw [if_pos h, extract_tools_items]
  · simp [calculator_list_tools]

/-- C6 witness: the calculator worker against a ready session. -/
theorem c6_list_tools_witness :
    readyState.sessionReady = true
    ∧ MCPServer_list_tools calculator_list_tools readyState
        = .ok (calculator_list_tools,
               {readyState with roundTrips := readyState.roundTrips + 1}) :=
  ⟨rfl, c6_list_tools_matches_declared.1 calculator_list_tools readyState rfl⟩

/-- C7: the chat loop's unknown-tool path prints the context-free constant
`Tool not found`: two requests for different absent tools produce the very
same output, so the message carries neither the attempted tool name nor the
available alternatives that the claim requires. -/
theorem c7_unknown_tool_message_lacks_context :
    handle_llm_response nosuchDirectiveA calculator_list_tools
        = ["Tool not found"]
    ∧ handle_llm_response nosuchDirectiveB calculator_list_tools
        = ["Tool not found"]
    ∧ handle_llm_response nosuchDirectiveA calculator_list_tools
        = handle_llm_response nosuchDirectiveB calculator_list_tools :=
  ⟨rfl, rfl, rfl⟩

theorem mcp_body_singleton :
    ∀ (name : String) (args : Json) (r : List TextContent),
      mcp_call_tool_body name args = .ok r → ∃ s, r = [mkText s] := by
  intro name args r h
  unfold mcp_call_tool_body at h
  repeat' split at h
  all_goals first
    | (cases h; exact ⟨_, rfl⟩)
    | cases h

theorem lg_body_singleton :
    ∀ (name : String) (args : Json) (r : List TextContent),
      lg_call_tool_body name args = .ok r → ∃ s, r = [mkText s] := by
  intro name args r h
  unfold lg_call_tool_body at h
  repeat' split at h
  all_goals first
    | (cases h; exact ⟨_, rfl⟩)
    | cases h

/-- C8: both workers' `call_tool` handlers are total — for every tool name
and every argument value the result is a single text content block, never a
propagated exception (every raise inside the try-block is caught by the
handler's catch-all) — and an unrecognized tool name yields the text block
naming the unknown tool. -/
theorem c8_call_tool_total_single_text_block :
    (∀ (name : String) (args : Json), ∃ s, mcp_call_tool name args = [mkText s])
    ∧ (∀ (name : String) (args : Json), name ∉ calcToolNames →
        name ≠ "evaluate_expression" →
        mcp_call_tool name args = [mkText ("❌ Unknown tool: " ++ name)])
    ∧ (∀ (name : String) (args : Json), ∃ s, lg_call_tool name args = [mkText s])
    ∧ (∀ (name : String) (args : Json), name ∉ lg_tool_names →
        lg_call_tool name args = [mkText ("Unknown tool: " ++ name)]) := by
  refine ⟨?_, ?_, ?_, ?_⟩
  · intro n a
    unfold mcp_call_tool
    cases hb : mcp_call_tool_body n a with
    | error e => exact ⟨"❌ Error: " ++ e, rfl⟩
    | ok r =>
      obtain ⟨s, hs⟩ := mcp_body_singleton n a r hb
      exact ⟨s, hs⟩
  · intro n a h1 h2
    unfold mcp_call_tool mcp_call_tool_body
    rw [if_neg h1, if_neg h2]
  · intro n a
    unfold lg_call_tool
    cases hb : lg_call_tool_body n a with
    | error e => exact ⟨"Error: " ++ e, rfl⟩
    | ok r =>
      obtain ⟨s, hs⟩ := lg_body_singleton n a r hb
      exact ⟨s, hs⟩
  · intro n a h1
    unfold lg_call_tool lg_call_tool_body
    rw [if_neg h1]

/-- C8 witness: the unknown tool `laser` against both workers. -/
theorem c8_call_tool_witness :
    mcp_call_tool "laser" (Json.obj []) = [mkText ("❌ Unknown tool: " ++ "laser")]
    ∧ lg_call_tool "laser" (Json.obj []) = [mkText ("Unknown tool: " ++ "laser")] :=
  ⟨c8_call_tool_total_single_text_block.2.1 "laser" (Json.obj [])
     (by decide) (by decide),
   c8_call_tool_total_single_text_block.2.2.2 "laser" (Json.obj []) (by decide)⟩

/-- C9: `evaluate_expression` evaluates under the namespace built at
`mcp_server/server.py` lines 55–58: locals are exactly the `math` members
whose names do not start with a double underscore, and the globals map
`__builtins__` to `None`, so every other name — every builtin included —
fails to resolve; consequently any expression containing such a name
produces a caught-error text block instead of being evaluated, as the
concrete builtins `open` and `print` show. -/
theorem c9_evaluate_expression_restricted_namespace :
    (∀ k, k ∈ allowed_names ↔ (k ∈ math_dict_keys ∧ pyStartsWith "__" k = false))
    ∧ mathResolve "__builtins__" = .ok PyValue.pyNone
    ∧ (∀ n, n ∉ allowed_names → n ≠ "__builtins__" →
        mathResolve n = .error ("name '" ++ n ++ "' is not defined"))
    ∧ (∀ (expr : String) (ast : PyExpr) (fb : Nat),
        pyParse expr = some ast →
        hasBadNameF (resolvableOf mathResolve) fb ast = true →
        ∃ m, mcp_call_tool "evaluate_expression" (exprArgs expr)
            = [mkText ("❌ Error: " ++ m)])
    ∧ mcp_call_tool "evaluate_expression" (exprArgs "open")
        = [mkText "❌ Error: name 'open' is not defined"]
    ∧ mcp_call_tool "evaluate_expression" (exprArgs "print(1)")
        = [mkText "❌ Error: name 'print' is not defined"] := by
  refine ⟨?_, rfl, ?_, ?_, rfl, rfl⟩
  · intro k
    simp [allowed_names, List.mem_filter]
  · intro n h1 h2
    unfold mathResolve
    rw [if_neg h1, if_neg h2]
  · intro expr ast fb hparse hbad
    obtain ⟨m, hm⟩ :=
      (badName_eval_error mathResolve fb).1 ast hbad (2 * expr.length + 8)
    refine ⟨m, ?_⟩
    have heval : pyEvalStr mathResolve expr = Except.error m := by
      unfold pyEvalStr
      rw [hparse]
      exact hm
    have hbody : mcp_call_tool_body "evaluate_expression" (exprArgs expr)
        = .error m := by
      unfold mcp_call_tool_body
      rw [if_neg (by decide : ¬ ("evaluate_expression" ∈ calcToolNames))]
      rw [if_pos rfl]
      rw [show ExpressionInput_expression? (exprArgs expr) = some expr from rfl]
      simp only [heval]
    unfold mcp_call_tool
    rw [hbody]

/-- C9 witness: the builtin name `open`, as an expression, fails to resolve
and surfaces as an error text block. -/
theorem c9_evaluate_expression_witness :
    pyParse "open" = some (PyExpr.nameRef "open")
    ∧ hasBadNameF (resolvableOf mathResolve) 1 (PyExpr.nameRef "open") = true
    ∧ ∃ m, mcp_call_tool "evaluate_expression" (exprArgs "open")
        = [mkText ("❌ Error: " ++ m)] :=
  ⟨rfl, rfl,
   c9_evaluate_expression_restricted_namespace.2.2.2.1 "open"
     (PyExpr.nameRef "open") 1 rfl rfl⟩

/-- C10: every `add`/`subtract`/`multiply`/`divide` invocation whose
validated numbers list has fewer than two elements returns the single
`Provide at least two numbers` text block — a constant, independent of the
numbers, so no arithmetic result is computed or reported. -/
theorem c10_fewer_than_two_numbers :
    ∀ (name : String) (args : Json) (nums : List ℚ),
      name ∈ calcToolNames →
      CalcInput_numbers? args = some nums →
      nums.length < 2 →
      mcp_call_tool name args = [mkText "❌ Provide at least two numbers."] := by
  intro name args nums h1 h2 h3
  have hbody : mcp_call_tool_body name args
      = .ok [mkText "❌ Provide at least two numbers."] := by
    unfold mcp_call_tool_body
    rw [if_pos h1, h2]
    simp only []
    rw [if_pos h3]
  unfold mcp_call_tool
  rw [hbody]

/-- C10 witness: `add` with the single number 5. -/
theorem c10_fewer_than_two_numbers_witness :
    ("add" ∈ calcToolNames)
    ∧ CalcInput_numbers? (Json.obj [("numbers", Json.arr [Json.num 5])])
        = some [(5 : ℚ)]
    ∧ ([(5 : ℚ)].length < 2)
    ∧ mcp_call_tool "add" (Json.obj [("numbers", Json.arr [Json.num 5])])
        = [mkText "❌ Provide at least two numbers."] :=
  ⟨by decide, rfl, by decide,
   c10_fewer_than_two_numbers "add" (Json.obj [("numbers", Json.arr [Json.num 5])])
     [(5 : ℚ)] (by decide) rfl (by decide)⟩

end MCPMath
